import Mathlib

/-!
Verification of the simpleDeltaMonitor repository (screen-region delta
tracker).  The Python sources are shallowly embedded below:

* `tracker_tick` / `run_tracker` embed the body of the sample loop
  `run_tracker` in src/tracker.py (lines 87-126): per tick the environment
  supplies the outcome of capture+OCR, whether the pyautogui click would
  raise, and the network outcome of the ntfy POST; the tick produces the
  ordered list of observable actions (queue puts and side effects).
* `run_autoclicker` embeds `run_autoclicker` in src/tracker.py (lines 32-46).
* `on_start` embeds the validation cascade of `App._on_start` in
  src/main.py (lines 374-463).
* `image_to_number` embeds `image_to_number` in src/reader.py (lines 44-58),
  with the OCR engine as an oracle from page-segmentation mode to text.

Python floats are modelled as rationals (the operations involved are
subtraction and order comparisons); timestamps are opaque strings.
-/

namespace DeltaMonitor

/-- Numeric readings (Python float) modelled as rationals. -/
abbrev Value := ℚ

/-- A screen coordinate pair. -/
abbrev Point := ℤ × ℤ

/-- Events put on the `out_queue` by `run_tracker`
(src/tracker.py lines 94, 122, 126). -/
inductive Event where
  | reading (ts : String) (value : Option Value)
  | alert (ts : String) (prev value : Value) (clicked_at : Option Point)
deriving DecidableEq

/-- Observable actions of one tracker tick, in program order. -/
inductive Action where
  | put (e : Event)
  | setAutoclickerStop
  | clickAttempt (p : Point) (ok : Bool)
  | ntfyPost (topic body : String) (sent : Bool)
deriving DecidableEq

/-- Outcome of the HTTP POST attempted by `_send_ntfy`. -/
inductive PostOutcome where
  | ok
  | urlError
  | osError
deriving DecidableEq

/-- `_send_ntfy` (src/tracker.py lines 17-29): strips the topic, returns
False on a blank topic, POSTs otherwise; URLError and OSError are caught
and turned into False. -/
def send_ntfy (topic : String) (_message : String) (post : PostOutcome) : Bool :=
  let topic := topic.trim
  if topic = "" then false
  else
    match post with
    | .ok => true
    | .urlError => false
    | .osError => false

/-- Configuration passed to `run_tracker` (src/tracker.py lines 64-76). -/
structure TrackerConfig where
  win : Value
  min_baseline : Value
  max_delta : Option Value
  click_on_win : Option Point
  ntfy_topic : Option String
  ntfy_message : String
  has_autoclicker_stop : Bool
deriving DecidableEq

/-- Outcome of `capture_region` + `image_to_number` on one tick: the pair of
calls may raise, or produce an optional value. -/
inductive ReadOutcome where
  | exn
  | val (v : Option Value)
deriving DecidableEq

/-- What the environment supplies to one tick of the sample loop. -/
structure TickInput where
  ts : String
  read : ReadOutcome
  click_ok : Bool
  post : PostOutcome
deriving DecidableEq

/-- Result of one tick of the sample loop. -/
inductive TickResult where
  | raised (acts : List Action)
  | continued (acts : List Action) (prev : Option Value)
  | triggered (acts : List Action)
deriving DecidableEq

/-- The message body built on a trigger (src/tracker.py lines 118-119). -/
def ntfy_body (ntfy_message : String) (p v : Value) : String :=
  let msg0 := if ntfy_message = "" then "Win reached" else ntfy_message
  let msg := if msg0.trim = "" then "Win reached" else msg0.trim
  msg ++ " Delta from " ++ toString p ++ " to " ++ toString v

/-- One iteration of the while loop of `run_tracker`
(src/tracker.py lines 87-126), from state `prev`.  Mirrors the source:
there is no try/except around the capture/OCR calls (lines 89-90), so an
exception there escapes; when a value is obtained, the reading event is
put first (line 94) and then `delta = value - prev` (line 96) is evaluated
BEFORE the `prev is not None` test of line 98, so it raises TypeError when
`prev` is None; the trigger branch performs stop-signal, click, ntfy,
alert in that order (lines 103-123); a miss only logs (line 126). -/
def tracker_tick (cfg : TrackerConfig) (prev : Option Value) (inp : TickInput) :
    TickResult :=
  match inp.read with
  | .exn => .raised []
  | .val none => .continued [.put (.reading inp.ts none)] prev
  | .val (some v) =>
    let acts0 : List Action := [.put (.reading inp.ts (some v))]
    match prev with
    | none => .raised acts0
    | some p =>
      let delta := v - p
      let maxOK : Bool :=
        match cfg.max_delta with
        | none => true
        | some m => decide (delta ≤ m)
      if decide (p ≥ cfg.min_baseline) && decide (delta ≥ cfg.win) && maxOK then
        let stopActs : List Action :=
          if cfg.has_autoclicker_stop then [.setAutoclickerStop] else []
        let clicked_at : Option Point :=
          match cfg.click_on_win, inp.click_ok with
          | some pt, true => some pt
          | some _, false => none
          | none, _ => none
        let clickActs : List Action :=
          match cfg.click_on_win with
          | some pt => [.clickAttempt pt inp.click_ok]
          | none => []
        let ntfyActs : List Action :=
          match cfg.ntfy_topic with
          | some t =>
            if t ≠ "" ∧ t.trim ≠ "" then
              [.ntfyPost t.trim (ntfy_body cfg.ntfy_message p v)
                (send_ntfy t.trim (ntfy_body cfg.ntfy_message p v) inp.post)]
            else []
          | none => []
        .triggered (acts0 ++ stopActs ++ clickActs ++ ntfyActs
          ++ [.put (.alert inp.ts p v clicked_at)])
      else
        .continued acts0 (some v)

/-- Terminal shape of a finite run of the sample loop. -/
inductive Outcome where
  | raised
  | cancelled (prev : Option Value)
  | triggered
deriving DecidableEq

/-- The sample loop over a finite schedule of ticks: the schedule ending
models the stop event being observed at line 87 or line 130 (cancelled
exit); an exception or a trigger ends the run early. -/
def run_tracker (cfg : TrackerConfig) (prev : Option Value) :
    List TickInput → List Action × Outcome
  | [] => ([], .cancelled prev)
  | inp :: rest =>
    match tracker_tick cfg prev inp with
    | .raised a => (a, .raised)
    | .triggered a => (a, .triggered)
    | .continued a p2 =>
      let r := run_tracker cfg p2 rest
      (a ++ r.1, r.2)

/-- Is this action the put of an alert (trigger) event? -/
def isAlertPut : Action → Bool
  | .put (.alert _ _ _ _) => true
  | _ => false

/-- True when every alert put in the list is its final element (hence also
at most one alert is ever put). -/
def alertLastOnly : List Action → Bool
  | [] => true
  | a :: rest => if isAlertPut a then rest.isEmpty else alertLastOnly rest

/-- No alert put occurs in the list. -/
def noAlertPut (l : List Action) : Bool := l.all fun a => !isAlertPut a

/-- True when no click or ntfy attempt occurs before the first
set-autoclicker-stop action. -/
def noActuatorBeforeStop : List Action → Bool
  | [] => true
  | .setAutoclickerStop :: _ => true
  | .clickAttempt _ _ :: _ => false
  | .ntfyPost _ _ _ :: _ => false
  | .put _ :: rest => noActuatorBeforeStop rest

/-- Bool projection: did the tick trigger? -/
def TickResult.isTriggered : TickResult → Bool
  | .triggered _ => true
  | _ => false

/-- The actions of a tick result. -/
def TickResult.acts : TickResult → List Action
  | .raised a => a
  | .continued a _ => a
  | .triggered a => a

/-- The trigger condition exactly as the spec states it: `previous is not
None AND previous >= minBaseline AND delta >= win AND (maxDelta is None OR
delta <= maxDelta)`. -/
def spec_trigger_cond (cfg : TrackerConfig) (prev : Option Value) (v : Value) :
    Bool :=
  match prev with
  | none => false
  | some p =>
    decide (p ≥ cfg.min_baseline) && decide (v - p ≥ cfg.win) &&
      (match cfg.max_delta with
       | none => true
       | some m => decide (v - p ≤ m))

/-- Tracker configuration used in the spec's window-gate example:
win=2, maxDelta=5, minBaseline=0, no actuators. -/
def windowCfg : TrackerConfig :=
  { win := 2, min_baseline := 0, max_delta := some 5, click_on_win := none,
    ntfy_topic := none, ntfy_message := "", has_autoclicker_stop := false }

/-- A tick input that reads the given value, with benign actuator outcomes. -/
def readTick (v : Option Value) : TickInput :=
  { ts := "t", read := .val v, click_ok := true, post := .ok }

/-- The window-gate configuration extended with all actuators: an
autoclicker stop signal, a click target and a ntfy topic. -/
def fullCfg : TrackerConfig :=
  { win := 2, min_baseline := 0, max_delta := some 5,
    click_on_win := some ((3 : ℤ), (4 : ℤ)), ntfy_topic := some "mytopic",
    ntfy_message := "", has_autoclicker_stop := true }

/-- The `clicked_at` value reported in the alert event
(src/tracker.py lines 107-115): the click target when the click succeeded,
None when the click raised or no target is configured. -/
def expectedClick (cfg : TrackerConfig) (cs : Bool) : Option Point :=
  match cfg.click_on_win, cs with
  | some pt, true => some pt
  | some _, false => none
  | none, _ => none

/-- The form state read by `App._on_start` (src/main.py lines 374-436).
Numeric text fields are modelled post-parse: `none` stands for a
`float(...)` ValueError.  `max_delta_field` is `none` when the field is
blank (max delta disabled), `some none` when non-blank but unparseable,
and `some (some m)` when it parses as m. -/
structure StartInput where
  region : Option (ℤ × ℤ × ℤ × ℤ)
  interval : Option Value
  win : Option Value
  min_baseline : Option Value
  max_delta_field : Option (Option Value)
  click_action : Bool
  click_on_delta : Option Point
  autoclicker_enabled : Bool
  autoclicker_coords : Option Point
  autoclick_interval : Option Value
deriving DecidableEq

/-- The configuration the tracker (and optional autoclicker) threads are
started with when validation passes (src/main.py lines 441-455). -/
structure StartedRun where
  region : ℤ × ℤ × ℤ × ℤ
  interval : Value
  win : Value
  min_baseline : Value
  max_delta : Option Value
  click_on_win : Option Point
  autoclick : Option (Point × Value)
deriving DecidableEq

/-- The max-delta block of `App._on_start` (src/main.py lines 399-412):
a blank field leaves max_delta = None; a non-blank field must parse, be
non-negative and be >= win. -/
def validate_max_delta (win : Value) : Option (Option Value) → Option (Option Value)
  | none => some none
  | some none => none
  | some (some m) =>
    if m < 0 then none
    else if m < win then none
    else some (some m)

/-- The click-on-win block of `App._on_start` (src/main.py lines 414-419):
when the option is enabled a click position must have been selected. -/
def validate_click (click_action : Bool) (cod : Option Point) :
    Option (Option Point) :=
  if click_action then
    match cod with
    | some pt => some (some pt)
    | none => none
  else some none

/-- The autoclicker block of `App._on_start` (src/main.py lines 421-433):
when enabled, a position must be set and the interval must parse into
(0, 300]. -/
def validate_autoclick (enabled : Bool) (coords : Option Point)
    (itv : Option Value) : Option (Option (Point × Value)) :=
  if enabled then
    match coords with
    | none => none
    | some pt =>
      match itv with
      | none => none
      | some ai =>
        if ai ≤ 0 ∨ ai > 300 then none
        else some (some (pt, ai))
  else some none

/-- `App._on_start` (src/main.py lines 374-463): the synchronous validation
cascade.  `none` means an error dialog is shown and no thread is started;
`some r` means the tracker thread (and, when configured, the autoclicker
thread) starts with configuration r. -/
def on_start (inp : StartInput) : Option StartedRun :=
  match inp.region with
  | none => none
  | some region =>
    match inp.interval, inp.win with
    | some interval, some win =>
      if interval ≤ 0 ∨ interval > 60 then none
      else if win < 0 then none
      else
        match inp.min_baseline with
        | none => none
        | some mb =>
          if mb < 0 then none
          else
            match validate_max_delta win inp.max_delta_field with
            | none => none
            | some md =>
              match validate_click inp.click_action inp.click_on_delta with
              | none => none
              | some cow =>
                match validate_autoclick inp.autoclicker_enabled
                    inp.autoclicker_coords inp.autoclick_interval with
                | none => none
                | some ac =>
                  some { region := region, interval := interval, win := win,
                         min_baseline := mb, max_delta := md,
                         click_on_win := cow, autoclick := ac }
    | _, _ => none

/-- A fully valid start form, used as a concrete witness. -/
def okInput : StartInput :=
  { region := some (0, 0, 100, 50), interval := some 1, win := some 2,
    min_baseline := some 0, max_delta_field := some (some 5),
    click_action := true, click_on_delta := some ((10 : ℤ), (20 : ℤ)),
    autoclicker_enabled := true,
    autoclicker_coords := some ((30 : ℤ), (40 : ℤ)),
    autoclick_interval := some 1 }

/-- The configuration `on_start` produces for `okInput`. -/
def okRun : StartedRun :=
  { region := (0, 0, 100, 50), interval := 1, win := 2, min_baseline := 0,
    max_delta := some 5, click_on_win := some ((10 : ℤ), (20 : ℤ)),
    autoclick := some (((30 : ℤ), (40 : ℤ)), 1) }

/-- Observable events of the autoclick loop. -/
inductive AEvent where
  | wait
  | clickAttempt (p : Point) (ok : Bool)
deriving DecidableEq

/-- `run_autoclicker` (src/tracker.py lines 32-46) over a schedule: `sig n`
is the value of the stop event at its n-th observation (the loop-top
`is_set` check and the timed `wait` observe it once each, in program
order); `clickOk n` tells whether the n-th observed iteration's click
raises; `fuel` bounds how many iterations are observed.  Each iteration
first waits one interval; a wait that observes the signal returns without
clicking; click failures are swallowed (only the `ok` flag differs). -/
def run_autoclicker (coords : Point) (clickOk : ℕ → Bool) (sig : ℕ → Bool) :
    ℕ → ℕ → List AEvent
  | 0, _ => []
  | fuel + 1, n =>
    if sig n then []
    else if sig (n + 1) then [.wait]
    else .wait :: .clickAttempt coords (clickOk n)
      :: run_autoclicker coords clickOk sig fuel (n + 2)

/-- The wait/click skeleton of an autoclick trace, with the success flags
of the clicks erased. -/
def eraseOk : List AEvent → List (Option Point)
  | [] => []
  | .wait :: r => none :: eraseOk r
  | .clickAttempt p _ :: r => some p :: eraseOk r

/-- OCR text, as a list of characters. -/
abbrev Text := List Char

/-- `text.replace(",", ".")` of src/reader.py line 52. -/
def replaceCommas (s : Text) : Text :=
  s.map fun c => if c = ',' then '.' else c

/-- Greedy match of `\d+(?:[.,]\d+)?` anchored at the head of s: a maximal
digit run, then optionally a separator followed by a maximal digit run. -/
def matchUnsigned (s : Text) : Option Text :=
  let d := s.takeWhile Char.isDigit
  if d.isEmpty then none
  else
    match s.drop d.length with
    | sep :: t =>
      if sep = '.' ∨ sep = ',' then
        let f := t.takeWhile Char.isDigit
        if f.isEmpty then some d else some (d ++ sep :: f)
      else some d
    | [] => some d

/-- Greedy match of the regex `-?\d+(?:[.,]\d+)?` anchored at the head of
s (Python `re` semantics: the optional minus is taken when digits follow,
otherwise the alternative without it is tried at the same position). -/
def matchNum (s : Text) : Option Text :=
  match s with
  | '-' :: rest =>
    match matchUnsigned rest with
    | some m => some ('-' :: m)
    | none => none
  | _ => matchUnsigned s

/-- `re.search` of the number regex: the match at the leftmost position
where one starts (src/reader.py line 52). -/
def searchNum : Text → Option Text
  | [] => none
  | c :: rest =>
    match matchNum (c :: rest) with
    | some m => some m
    | none => searchNum rest

/-- The natural number denoted by a digit run. -/
def digitsToNat (ds : Text) : ℕ :=
  ds.foldl (fun acc c => 10 * acc + (c.toNat - 48)) 0

/-- Python `float()` on an unsigned token of the shape the regex yields:
digits optionally followed by a dot and digits.  A comma in the token (a
shape only reachable on text that was not comma-replaced) makes `float()`
raise ValueError, modelled as `none`. -/
def floatOfUnsigned (s : Text) : Option Value :=
  let d := s.takeWhile Char.isDigit
  if d.isEmpty then none
  else
    match s.drop d.length with
    | [] => some ((digitsToNat d : ℕ) : ℚ)
    | '.' :: fs =>
      if fs ≠ [] ∧ fs.all Char.isDigit then
        some (((digitsToNat d : ℕ) : ℚ)
          + ((digitsToNat fs : ℕ) : ℚ) / ((10 : ℚ) ^ fs.length))
      else none
    | _ => none

/-- Python `float()` on a matched token, with an optional leading minus
(src/reader.py line 55): negative readings parse to negative values. -/
def floatOfToken (s : Text) : Option Value :=
  match s with
  | '-' :: rest => (floatOfUnsigned rest).map fun q => -q
  | _ => floatOfUnsigned s

/-- The number extracted from one OCR text: first regex match of the
comma-replaced text, parsed (src/reader.py lines 52-57). -/
def extractNum (text : Text) : Option Value :=
  (searchNum (replaceCommas text)).bind floatOfToken

/-- The `for psm in (6, 7, 3)` loop of `image_to_number`
(src/reader.py lines 50-58): per mode, OCR the image, search the
comma-replaced text; on a match return `float(...)`, except that a
ValueError falls through to the next mode; after all modes, None. -/
def tryPsms (ocr : ℕ → Text) : List ℕ → Option Value
  | [] => none
  | psm :: rest =>
    match searchNum (replaceCommas (ocr psm)) with
    | none => tryPsms ocr rest
    | some tok =>
      match floatOfToken tok with
      | some q => some q
      | none => tryPsms ocr rest

/-- `image_to_number` (src/reader.py lines 44-58), with the OCR engine as
an oracle from page-segmentation mode to recognized text. -/
def image_to_number (ocr : ℕ → Text) : Option Value :=
  tryPsms ocr [6, 7, 3]

/-- Modal preference as the claim states it: the value of mode 6 if it
yields one, else mode 7, else mode 3. -/
def firstMode (ocr : ℕ → Text) : Option Value :=
  match extractNum (ocr 6) with
  | some q => some q
  | none =>
    match extractNum (ocr 7) with
    | some q => some q
    | none => extractNum (ocr 3)

/-- An OCR oracle reading a negative value inside other text. -/
def ocrNeg : ℕ → Text := fun _ => "reads -5 now".toList

/-- An OCR oracle reading a comma decimal. -/
def ocrComma : ℕ → Text := fun _ => "1,5".toList

/-- An OCR oracle reading two numbers; the first (leftmost) one counts. -/
def ocrTwo : ℕ → Text := fun _ => "12 34".toList

/-- An OCR oracle where mode 6 sees no number but modes 7 and 3 do. -/
def ocrOrder : ℕ → Text := fun psm =>
  if psm = 6 then "abc".toList
  else if psm = 7 then "8".toList
  else "9".toList

/-- C1: claimed: the first tick that obtains a value while `previous` is
None only seeds state and never raises.  The code instead evaluates
`delta = value - prev` (src/tracker.py line 96) before the
`prev is not None` test, so every such tick raises TypeError after putting
its reading event: the loop crashes instead of seeding `prev`. -/
theorem first_reading_raises_TypeError (cfg : TrackerConfig) (ts : String)
    (v : Value) (cs : Bool) (post : PostOutcome) :
    tracker_tick cfg none ⟨ts, .val (some v), cs, post⟩
      = .raised [.put (.reading ts (some v))] := rfl

/-- C2: claimed: an exception during capture/OCR is treated as a read miss
and the loop stays alive.  The code has no try/except around the
capture/OCR calls (src/tracker.py lines 89-90), so the exception escapes
the tick and ends the whole run in a crashed state, unlike a miss tick. -/
theorem capture_exception_crashes_loop (cfg : TrackerConfig)
    (prev : Option Value) (ts : String) (cs : Bool) (post : PostOutcome)
    (rest : List TickInput) :
    tracker_tick cfg prev ⟨ts, .exn, cs, post⟩ = .raised []
    ∧ run_tracker cfg prev (⟨ts, .exn, cs, post⟩ :: rest) = ([], .raised)
    ∧ tracker_tick cfg prev ⟨ts, .val none, cs, post⟩
        = .continued [.put (.reading ts none)] prev := by
  refine ⟨rfl, ?_, rfl⟩
  show (match tracker_tick cfg prev ⟨ts, .exn, cs, post⟩ with
        | .raised a => (a, Outcome.raised)
        | .triggered a => (a, Outcome.triggered)
        | .continued a p2 =>
          let r := run_tracker cfg p2 rest
          (a ++ r.1, r.2)) = ([], .raised)
  rfl

/-- C3: on every tick with a present value and `previous` set, the loop
triggers exactly when `previous >= minBaseline` and
`delta = value - previous >= win` and (`maxDelta` is absent or
`delta <= maxDelta`), both window bounds inclusive; the spec's example with
win=2, maxDelta=5, previous=10 behaves as stated at deltas 1, 2, 5, 6. -/
theorem trigger_condition_matches_spec :
    (∀ (cfg : TrackerConfig) (p v : Value) (ts : String) (cs : Bool)
       (post : PostOutcome),
       (tracker_tick cfg (some p) ⟨ts, .val (some v), cs, post⟩).isTriggered
         = spec_trigger_cond cfg (some p) v)
    ∧ (tracker_tick windowCfg (some 10) (readTick (some 11))).isTriggered = false
    ∧ (tracker_tick windowCfg (some 10) (readTick (some 12))).isTriggered = true
    ∧ (tracker_tick windowCfg (some 10) (readTick (some 15))).isTriggered = true
    ∧ (tracker_tick windowCfg (some 10) (readTick (some 16))).isTriggered = false := by
  refine ⟨?_, ?_, ?_, ?_, ?_⟩
  · intro cfg p v ts cs post
    simp only [tracker_tick, spec_trigger_cond]
    split <;> simp_all [TickResult.isTriggered]
  all_goals
    simp [tracker_tick, windowCfg, readTick, TickResult.isTriggered]
    norm_num

theorem alertLastOnly_append (a b : List Action) (h : noAlertPut a = true) :
    alertLastOnly (a ++ b) = alertLastOnly b := by
  induction a with
  | nil => rfl
  | cons x xs ih =>
    simp only [noAlertPut, List.all_cons, Bool.and_eq_true, Bool.not_eq_true'] at h
    simp only [List.cons_append, alertLastOnly, h.1, if_false]
    exact ih (by simpa [noAlertPut] using h.2)

theorem noAlertPut_stopActs (b : Bool) :
    noAlertPut (if b then [Action.setAutoclickerStop] else []) = true := by
  cases b <;> rfl

theorem noAlertPut_clickActs (o : Option Point) (cs : Bool) :
    noAlertPut (match o with
      | some pt => [Action.clickAttempt pt cs]
      | none => []) = true := by
  cases o <;> rfl

theorem noAlertPut_ntfyActs (o : Option String) (body : String)
    (post : PostOutcome) :
    noAlertPut (match o with
      | some t =>
        if t ≠ "" ∧ t.trim ≠ "" then
          [Action.ntfyPost t.trim body (send_ntfy t.trim body post)]
        else []
      | none => []) = true := by
  cases o with
  | none => rfl
  | some t =>
    by_cases hc : t ≠ "" ∧ t.trim ≠ "" <;> simp [hc] <;> rfl

theorem tick_acts_alertLastOnly (cfg : TrackerConfig) (prev : Option Value)
    (inp : TickInput) :
    alertLastOnly (tracker_tick cfg prev inp).acts = true := by
  rcases inp with ⟨ts, read, cs, post⟩
  rcases read with _ | ⟨_ | v⟩
  · rfl
  · rfl
  · rcases prev with _ | p
    · rfl
    · simp only [tracker_tick]
      split
      case isTrue =>
        simp only [TickResult.acts]
        refine Eq.trans (alertLastOnly_append _ _ ?_) rfl
        simp only [noAlertPut, List.all_append, Bool.and_eq_true]
        refine ⟨⟨⟨rfl, ?_⟩, ?_⟩, ?_⟩
        · simpa [noAlertPut] using noAlertPut_stopActs cfg.has_autoclicker_stop
        · simpa [noAlertPut] using noAlertPut_clickActs cfg.click_on_win cs
        · simpa [noAlertPut] using
            noAlertPut_ntfyActs cfg.ntfy_topic (ntfy_body cfg.ntfy_message p v) post
      case isFalse => rfl

theorem tick_continued_noAlert (cfg : TrackerConfig) (prev : Option Value)
    (inp : TickInput) (a : List Action) (p2 : Option Value)
    (h : tracker_tick cfg prev inp = .continued a p2) : noAlertPut a = true := by
  rcases inp with ⟨ts, read, cs, post⟩
  rcases read with _ | ⟨_ | v⟩
  · exact absurd h (by simp [tracker_tick])
  · simp only [tracker_tick] at h
    cases h
    rfl
  · rcases prev with _ | p
    · exact absurd h (by simp [tracker_tick])
    · simp only [tracker_tick] at h
      split at h
      · exact absurd h (by simp)
      · cases h
        rfl

/-- C4: once a trigger (alert) event is emitted the loop issues nothing
further: in every run, any alert put is the last action of the whole run
(hence at most one alert per run), and a run that triggered is unchanged
by extending its schedule with more ticks. -/
theorem trigger_event_is_terminal :
    (∀ (cfg : TrackerConfig) (prev : Option Value) (inputs : List TickInput),
       alertLastOnly (run_tracker cfg prev inputs).1 = true)
    ∧ (∀ (cfg : TrackerConfig) (prev : Option Value)
         (inputs extra : List TickInput),
         (run_tracker cfg prev inputs).2 = .triggered →
         run_tracker cfg prev (inputs ++ extra) = run_tracker cfg prev inputs) := by
  constructor
  · intro cfg prev inputs
    induction inputs generalizing prev with
    | nil => rfl
    | cons inp rest ih =>
      simp only [run_tracker]
      cases h : tracker_tick cfg prev inp with
      | raised a =>
        have ha := tick_acts_alertLastOnly cfg prev inp
        rw [h] at ha
        exact ha
      | triggered a =>
        have ha := tick_acts_alertLastOnly cfg prev inp
        rw [h] at ha
        exact ha
      | continued a p2 =>
        show alertLastOnly (a ++ (run_tracker cfg p2 rest).1) = true
        rw [alertLastOnly_append _ _ (tick_continued_noAlert cfg prev inp a p2 h)]
        exact ih p2
  · intro cfg prev inputs extra
    induction inputs generalizing prev with
    | nil =>
      intro h
      exact absurd h (by simp [run_tracker])
    | cons inp rest ih =>
      intro h
      rw [List.cons_append]
      simp only [run_tracker] at h ⊢
      cases ht : tracker_tick cfg prev inp with
      | raised a =>
        rw [ht] at h
      | triggered a => rfl
      | continued a p2 =>
        rw [ht] at h
        have h2 : (run_tracker cfg p2 rest).2 = .triggered := h
        show (a ++ (run_tracker cfg p2 (rest ++ extra)).1,
              (run_tracker cfg p2 (rest ++ extra)).2)
            = (a ++ (run_tracker cfg p2 rest).1, (run_tracker cfg p2 rest).2)
        rw [ih p2 h2]

theorem trigger_event_is_terminal_witness :
    alertLastOnly (run_tracker windowCfg (some 10) [readTick (some 12)]).1 = true
    ∧ run_tracker windowCfg (some 10)
        ([readTick (some 12)] ++ [readTick (some 13)])
        = run_tracker windowCfg (some 10) [readTick (some 12)] := by
  constructor
  · exact trigger_event_is_terminal.1 windowCfg (some 10) [readTick (some 12)]
  · refine trigger_event_is_terminal.2 windowCfg (some 10)
      [readTick (some 12)] [readTick (some 13)] ?_
    simp [run_tracker, tracker_tick, windowCfg, readTick]
    norm_num

/-- C5: on every triggering tick, when an autoclicker stop signal is
present it is set, and no click or ntfy attempt happens before it is set. -/
theorem stop_signal_set_before_actuators (cfg : TrackerConfig) (p v : Value)
    (ts : String) (cs : Bool) (post : PostOutcome)
    (hstop : cfg.has_autoclicker_stop = true)
    (htrig : (tracker_tick cfg (some p) ⟨ts, .val (some v), cs, post⟩).isTriggered
      = true) :
    Action.setAutoclickerStop
        ∈ (tracker_tick cfg (some p) ⟨ts, .val (some v), cs, post⟩).acts
    ∧ noActuatorBeforeStop
        (tracker_tick cfg (some p) ⟨ts, .val (some v), cs, post⟩).acts = true := by
  simp only [tracker_tick] at htrig ⊢
  revert htrig
  split
  case isTrue =>
    intro _
    simp only [TickResult.acts, hstop, if_true]
    constructor
    · simp
    · simp [noActuatorBeforeStop]
  case isFalse =>
    intro htrig
    exact absurd htrig (by simp [TickResult.isTriggered])

theorem stop_signal_set_before_actuators_witness :
    Action.setAutoclickerStop
        ∈ (tracker_tick fullCfg (some 10) ⟨"t", .val (some 12), true, .ok⟩).acts
    ∧ noActuatorBeforeStop
        (tracker_tick fullCfg (some 10) ⟨"t", .val (some 12), true, .ok⟩).acts
        = true := by
  refine stop_signal_set_before_actuators fullCfg 10 12 "t" true .ok rfl ?_
  simp [tracker_tick, fullCfg, windowCfg, TickResult.isTriggered]
  norm_num

/-- C6: a tick whose reading is absent leaves `previous` unchanged and only
logs the miss; in the spec's example, previous=10 then a miss then value=12
still triggers with win=2 because the delta is taken against 10. -/
theorem miss_leaves_baseline_unchanged :
    (∀ (cfg : TrackerConfig) (prev : Option Value) (ts : String) (cs : Bool)
       (post : PostOutcome),
       tracker_tick cfg prev ⟨ts, .val none, cs, post⟩
         = .continued [.put (.reading ts none)] prev)
    ∧ (run_tracker windowCfg (some 10) [readTick none, readTick (some 12)]).2
        = .triggered := by
  constructor
  · intro cfg prev ts cs post
    rfl
  · simp [run_tracker, tracker_tick, windowCfg, readTick]
    norm_num

/-- C7: on every triggering tick, actuator failures are swallowed: whatever
the click and notification outcomes, the tick still ends triggered with the
alert event as its final action, and a failed click is reported as
`clicked_at = None`. -/
theorem actuator_failures_swallowed (cfg : TrackerConfig) (p v : Value)
    (ts : String) (cs : Bool) (post : PostOutcome)
    (htrig : (tracker_tick cfg (some p) ⟨ts, .val (some v), cs, post⟩).isTriggered
      = true) :
    (tracker_tick cfg (some p) ⟨ts, .val (some v), cs, post⟩).acts.getLast?
        = some (.put (.alert ts p v (expectedClick cfg cs)))
    ∧ (cs = false → expectedClick cfg cs = none) := by
  constructor
  · simp only [tracker_tick] at htrig ⊢
    revert htrig
    split
    case isTrue =>
      intro _
      simp only [TickResult.acts]
      rw [List.getLast?_append_cons]
      rfl
    case isFalse =>
      intro htrig
      exact absurd htrig (by simp [TickResult.isTriggered])
  · intro hcs
    subst hcs
    cases hc : cfg.click_on_win <;> simp [expectedClick, hc]

theorem actuator_failures_swallowed_witness :
    (tracker_tick fullCfg (some 10) ⟨"t", .val (some 12), false, .urlError⟩).acts.getLast?
        = some (.put (.alert "t" 10 12 (expectedClick fullCfg false)))
    ∧ (false = false → expectedClick fullCfg false = none) := by
  refine actuator_failures_swallowed fullCfg 10 12 "t" false .urlError ?_
  simp [tracker_tick, fullCfg, windowCfg, TickResult.isTriggered]
  norm_num

theorem validate_max_delta_ge (win : Value) (mdf : Option (Option Value))
    (md : Option Value) (h : validate_max_delta win mdf = some md) :
    ∀ m, md = some m → win ≤ m := by
  intro m hm
  rcases mdf with _ | ⟨_ | m0⟩
  · simp only [validate_max_delta] at h
    cases h
    cases hm
  · exact absurd h (by simp [validate_max_delta])
  · simp only [validate_max_delta] at h
    split at h
    next => cases h
    next =>
      split at h
      next => cases h
      next hlt =>
        cases h
        cases hm
        linarith [not_lt.mp hlt]

theorem validate_click_some (ca : Bool) (cod : Option Point)
    (cow : Option Point) (h : validate_click ca cod = some cow) :
    ca = true → ∃ pt, cow = some pt := by
  intro hca
  subst hca
  simp only [validate_click, if_true] at h
  rcases cod with _ | pt
  · cases h
  · simp only at h
    cases h
    exact ⟨pt, rfl⟩

theorem validate_autoclick_bounds (ae : Bool) (coords : Option Point)
    (itv : Option Value) (ac : Option (Point × Value))
    (h : validate_autoclick ae coords itv = some ac) :
    (∀ pt ai, ac = some (pt, ai) → 0 < ai ∧ ai ≤ 300)
    ∧ (ae = true → ∃ pt ai, ac = some (pt, ai)) := by
  cases ae with
  | false =>
    simp only [validate_autoclick, if_false, Bool.false_eq_true] at h
    cases h
    exact ⟨fun pt ai hai => (by cases hai), fun hae => (by cases hae)⟩
  | true =>
    simp only [validate_autoclick, if_true] at h
    rcases coords with _ | pt
    · cases h
    · rcases itv with _ | ai
      · simp only at h
        cases h
      · simp only at h
        split at h
        next => cases h
        next hiv =>
          cases h
          refine ⟨fun pt2 ai2 hai => ?_, fun _ => ⟨pt, ai, rfl⟩⟩
          cases hai
          have hb := not_or.mp hiv
          exact ⟨not_le.mp hb.1, not_lt.mp hb.2⟩

/-- C8: the start handler launches the threads only on a configuration
with interval in (0, 60], win >= 0, minBaseline >= 0, maxDelta (when
given) >= win, a click target whenever click-on-win is enabled, and an
auto-click interval in (0, 300] whenever the auto-clicker is enabled. -/
theorem invalid_config_never_starts (inp : StartInput) (r : StartedRun)
    (h : on_start inp = some r) :
    0 < r.interval ∧ r.interval ≤ 60 ∧ 0 ≤ r.win ∧ 0 ≤ r.min_baseline
    ∧ (∀ m, r.max_delta = some m → r.win ≤ m)
    ∧ (inp.click_action = true → ∃ pt, r.click_on_win = some pt)
    ∧ (∀ pt ai, r.autoclick = some (pt, ai) → 0 < ai ∧ ai ≤ 300)
    ∧ (inp.autoclicker_enabled = true → ∃ pt ai, r.autoclick = some (pt, ai)) := by
  simp only [on_start] at h
  repeat' split at h
  all_goals cases h
  all_goals push_neg at *
  refine ⟨by dsimp only; linarith, by dsimp only; linarith, by dsimp only; linarith,
          by dsimp only; linarith, ?_, ?_, ?_, ?_⟩
  · exact fun m hm => validate_max_delta_ge _ _ _ (by assumption) m hm
  · exact fun hca => validate_click_some _ _ _ (by assumption) hca
  · exact fun pt ai hai =>
      (validate_autoclick_bounds _ _ _ _ (by assumption)).1 pt ai hai
  · exact fun hae =>
      (validate_autoclick_bounds _ _ _ _ (by assumption)).2 hae

theorem invalid_config_never_starts_witness :
    on_start okInput = some okRun
    ∧ (0 < okRun.interval ∧ okRun.interval ≤ 60 ∧ 0 ≤ okRun.win
       ∧ 0 ≤ okRun.min_baseline
       ∧ (∀ m, okRun.max_delta = some m → okRun.win ≤ m)
       ∧ (okInput.click_action = true → ∃ pt, okRun.click_on_win = some pt)
       ∧ (∀ pt ai, okRun.autoclick = some (pt, ai) → 0 < ai ∧ ai ≤ 300)
       ∧ (okInput.autoclicker_enabled = true
          → ∃ pt ai, okRun.autoclick = some (pt, ai))) := by
  have hok : on_start okInput = some okRun := by
    simp only [on_start, okInput, okRun, validate_max_delta, validate_click,
      validate_autoclick]
    norm_num
  exact ⟨hok, invalid_config_never_starts okInput okRun hok⟩

/-- C9: the autoclick loop's first action is a wait (no immediate click);
a signal observed at the loop top ends it with no action, and one observed
by the wait ends it after that wait with no click; click failures do not
change the wait/click skeleton of the run; and with the signal never set
the loop never stops on its own (every fueled iteration waits and clicks). -/
theorem autoclicker_waits_first_stops_only_on_signal (coords : Point)
    (clickOk sig : ℕ → Bool) :
    (∀ fuel n, (run_autoclicker coords clickOk sig fuel n).head? = none
        ∨ (run_autoclicker coords clickOk sig fuel n).head? = some .wait)
    ∧ (∀ fuel n, sig n = true → run_autoclicker coords clickOk sig fuel n = [])
    ∧ (∀ fuel n, sig n = false → sig (n + 1) = true →
        run_autoclicker coords clickOk sig (fuel + 1) n = [.wait])
    ∧ (∀ (clickOk2 : ℕ → Bool) fuel n,
        eraseOk (run_autoclicker coords clickOk sig fuel n)
          = eraseOk (run_autoclicker coords clickOk2 sig fuel n))
    ∧ ((∀ m, sig m = false) → ∀ fuel n,
        (run_autoclicker coords clickOk sig fuel n).length = 2 * fuel) := by
  refine ⟨?_, ?_, ?_, ?_, ?_⟩
  · intro fuel n
    cases fuel with
    | zero => exact Or.inl rfl
    | succ f =>
      rcases hs : sig n with _ | _ <;>
        rcases h2 : sig (n + 1) with _ | _ <;>
        simp [run_autoclicker, hs, h2]
  · intro fuel n hs
    cases fuel with
    | zero => rfl
    | succ f => simp [run_autoclicker, hs]
  · intro fuel n hs h2
    simp [run_autoclicker, hs, h2]
  · intro clickOk2 fuel
    induction fuel with
    | zero => intro n; rfl
    | succ f ih =>
      intro n
      rcases hs : sig n with _ | _ <;>
        rcases h2 : sig (n + 1) with _ | _ <;>
        simp [run_autoclicker, hs, h2, eraseOk]
      exact ih (n + 2)
  · intro hall fuel
    induction fuel with
    | zero => intro n; rfl
    | succ f ih =>
      intro n
      simp only [run_autoclicker, hall n, hall (n + 1), if_false,
        Bool.false_eq_true, List.length_cons]
      rw [ih (n + 2)]
      ring

theorem autoclicker_waits_first_stops_only_on_signal_witness :
    run_autoclicker ((1 : ℤ), (2 : ℤ)) (fun _ => true) (fun _ => true) 5 0 = []
    ∧ run_autoclicker ((1 : ℤ), (2 : ℤ)) (fun _ => true)
        (fun n => decide (1 ≤ n)) (3 + 1) 0 = [.wait]
    ∧ (run_autoclicker ((1 : ℤ), (2 : ℤ)) (fun _ => true)
        (fun _ => false) 3 0).length = 2 * 3 := by
  refine ⟨?_, ?_, ?_⟩
  · exact (autoclicker_waits_first_stops_only_on_signal ((1 : ℤ), (2 : ℤ))
      (fun _ => true) (fun _ => true)).2.1 5 0 rfl
  · exact (autoclicker_waits_first_stops_only_on_signal ((1 : ℤ), (2 : ℤ))
      (fun _ => true) (fun n => decide (1 ≤ n))).2.2.1 3 0 rfl rfl
  · exact (autoclicker_waits_first_stops_only_on_signal ((1 : ℤ), (2 : ℤ))
      (fun _ => true) (fun _ => false)).2.2.2.2 (fun m => rfl) 3 0

theorem tryPsms_cons (ocr : ℕ → Text) (psm : ℕ) (rest : List ℕ) :
    tryPsms ocr (psm :: rest)
      = match extractNum (ocr psm) with
        | some q => some q
        | none => tryPsms ocr rest := by
  simp only [tryPsms, extractNum]
  rcases h : searchNum (replaceCommas (ocr psm)) with _ | t
  · simp
  · rcases hf : floatOfToken t with _ | q <;> simp [hf]

theorem tryPsms_singleton (ocr : ℕ → Text) (psm : ℕ) :
    tryPsms ocr [psm] = extractNum (ocr psm) := by
  rw [tryPsms_cons]
  rcases h : extractNum (ocr psm) with _ | q <;> simp [tryPsms]

/-- C10: `image_to_number` tries OCR modes 6, 7, 3 in that order and
returns the first regex token (optionally negative integer or decimal,
comma accepted as separator via the comma-to-dot replacement) parsed as a
number; it returns None exactly when no mode yields a parseable token;
negative readings are possible; the leftmost token wins. -/
theorem image_to_number_first_token :
    (∀ ocr, image_to_number ocr = firstMode ocr)
    ∧ (∀ ocr, image_to_number ocr = none ↔
        extractNum (ocr 6) = none ∧ extractNum (ocr 7) = none
        ∧ extractNum (ocr 3) = none)
    ∧ image_to_number ocrNeg = some (-5)
    ∧ image_to_number ocrComma = some (3 / 2)
    ∧ image_to_number ocrTwo = some 12
    ∧ image_to_number ocrOrder = some 8 := by
  have hfm : ∀ ocr, image_to_number ocr = firstMode ocr := by
    intro ocr
    rw [image_to_number, tryPsms_cons, tryPsms_cons, tryPsms_singleton]
    rfl
  refine ⟨hfm, ?_, ?_, ?_, ?_, ?_⟩
  · intro ocr
    rw [hfm]
    simp only [firstMode]
    rcases h6 : extractNum (ocr 6) with _ | q6 <;>
      rcases h7 : extractNum (ocr 7) with _ | q7 <;>
      rcases h3 : extractNum (ocr 3) with _ | q3 <;>
      simp
  · have h1 : image_to_number ocrNeg = some (-((5 : ℕ) : ℚ)) := rfl
    rw [h1]
    norm_num
  · have h1 : image_to_number ocrComma
        = some (((1 : ℕ) : ℚ) + ((5 : ℕ) : ℚ) / (10 : ℚ) ^ (1 : ℕ)) := rfl
    rw [h1]
    norm_num
  · have h1 : image_to_number ocrTwo = some (((12 : ℕ) : ℚ)) := rfl
    rw [h1]
    norm_num
  · have h1 : image_to_number ocrOrder = some (((8 : ℕ) : ℚ)) := rfl
    rw [h1]
    norm_num

end DeltaMonitor
